import Mathlib

/-!
Shallow embedding of the status-normalization and report-aggregation core of
`app.py` (a Flask dashboard aggregating security-scanner reports and CI job
status), together with proofs about the embedded functions.

Python strings are modelled as `List Char` (`PyStr`); Python `None` is
modelled with `Option`; JSON inputs are modelled as parsed Lean structures;
a file read is modelled by `FileInput`: the file may be missing, unreadable
(any exception inside the `try` block, carried as its message string), or
parsed.  Machine floats of the coverage parser are idealised as rationals.
-/

/-- Python strings, modelled as lists of characters. -/
abbrev PyStr := List Char

/-- Python `str.lower()` (ASCII-faithful, per-character). -/
def pyLower (s : PyStr) : PyStr := s.map Char.toLower

/-- Python `str.upper()` (ASCII-faithful, per-character). -/
def pyUpper (s : PyStr) : PyStr := s.map Char.toUpper

/-- Python `s.startswith(p)`. -/
def pyStarts : PyStr → PyStr → Bool
  | _, [] => true
  | [], _ :: _ => false
  | c :: cs, p :: ps => c = p && pyStarts cs ps

/-- Python `needle in hay` (substring containment). -/
def pyIn (needle : PyStr) : PyStr → Bool
  | [] => needle.isEmpty
  | c :: rest => pyStarts (c :: rest) needle || pyIn needle rest

/-- Python `str.replace(old, new)` for a one-character pattern. -/
def pyReplaceChar (old new : Char) (s : PyStr) : PyStr :=
  s.map (fun c => if c = old then new else c)

/-- Python `str.replace(c, "")` for a one-character pattern: drop every occurrence. -/
def pyDropChar (c : Char) (s : PyStr) : PyStr :=
  s.filter (fun x => x ≠ c)

/-- Python `str.replace("--", "-")`: one left-to-right pass over non-overlapping
occurrences, each `--` becoming `-` (so `---` becomes `--`, not `-`). -/
def replaceDashPair : PyStr → PyStr
  | [] => []
  | [c] => [c]
  | c1 :: c2 :: rest =>
      if c1 = '-' ∧ c2 = '-' then '-' :: replaceDashPair rest
      else c1 :: replaceDashPair (c2 :: rest)

/-- Whether the string contains two consecutive hyphens anywhere. -/
def hasDoubleDash : PyStr → Bool
  | [] => false
  | [_] => false
  | c1 :: c2 :: rest => (c1 = '-' && c2 = '-') || hasDoubleDash (c2 :: rest)

/-- Python `str.isspace`-style whitespace set used by `str.strip()` (ASCII part). -/
def pyIsSpace (c : Char) : Bool :=
  c = ' ' || c = '\t' || c = '\n' || c = '\r' || c = '\x0b' || c = '\x0c'

/-- Python `str.strip()`: drop leading and trailing whitespace. -/
def pyStrip (s : PyStr) : PyStr :=
  ((s.dropWhile pyIsSpace).reverse.dropWhile pyIsSpace).reverse

/-- Render a `Nat` as a `PyStr`, for embedded f-string messages. -/
def natStr (n : Nat) : PyStr := (toString n).data

/-- Python dict lookup with default 0 (`d.get(k, 0)` / `d[k]` on a present key),
for the insertion-ordered association lists that model Python dicts. -/
def dget : List (PyStr × Nat) → PyStr → Nat
  | [], _ => 0
  | (k0, v) :: rest, k => if k0 = k then v else dget rest k

/-- Python `d[k] = d.get(k, 0) + 1` on an insertion-ordered dict: update the
existing slot in place, or append a fresh key with count 1. -/
def dincr : List (PyStr × Nat) → PyStr → List (PyStr × Nat)
  | [], k => [(k, 1)]
  | (k0, v) :: rest, k =>
      if k0 = k then (k0, v + 1) :: rest else (k0, v) :: dincr rest k

/-- Python `d[k] = v` on an insertion-ordered dict: overwrite in place or append. -/
def dset {ν : Type} : List (PyStr × ν) → PyStr → ν → List (PyStr × ν)
  | [], k, v => [(k, v)]
  | (k0, v0) :: rest, k, v =>
      if k0 = k then (k0, v) :: rest else (k0, v0) :: dset rest k v

/-- The nested `status_class` helper of `dashboard()` (app.py lines 1264-1272):
maps any raw status string onto one of the seven display classes.  The source
binds `s = status.lower()` once; it is inlined here. -/
def status_class (status : PyStr) : PyStr :=
  if pyStarts (pyLower status) ("ok".data) || pyLower status == ("success".data)
    then ("ok".data)
  else if pyStarts (pyLower status) ("warn".data) then ("warn".data)
  else if pyStarts (pyLower status) ("fail".data) || pyLower status == ("failure".data)
    then ("fail".data)
  else if pyLower status == ("error".data) then ("error".data)
  else if pyIn ("progress".data) (pyLower status) || pyLower status == ("queued".data)
    then ("in-progress".data)
  else if pyLower status == ("skipped".data) || pyLower status == ("cancelled".data)
    then ("skipped".data)
  else ("na".data)

/-- Input of a report parser.  `missing`: `os.path.exists(path)` is false.
`unreadable msg`: opening/parsing the file raised, with `str(e) = msg`
(every parser catches all exceptions into its result, so only the message
survives).  `parsed`: the file was read and decoded into the given value. -/
inductive FileInput (α : Type) where
  | missing : FileInput α
  | unreadable (msg : PyStr) : FileInput α
  | parsed (val : α) : FileInput α

/-- The object under the optional `issue_cwe` key of a Bandit result entry. -/
structure BanditCwe where
  link : Option PyStr
deriving DecidableEq

/-- One entry of a Bandit report's `results` list; `none` = key absent. -/
structure BanditEntry where
  issue_severity : Option PyStr := none
  filename : Option PyStr := none
  line_number : Option Nat := none
  issue_text : Option PyStr := none
  issue_confidence : Option PyStr := none
  test_id : Option PyStr := none
  issue_cwe : Option BanditCwe := none
  more_info : Option PyStr := none
deriving DecidableEq

/-- A parsed Bandit report: `data.get("results", [])` (absent key = `[]`). -/
structure BanditReport where
  results : List BanditEntry
deriving DecidableEq

/-- One normalized SAST finding as built by `load_bandit_results`. -/
structure BanditFinding where
  severity : PyStr
  file : PyStr
  line : Nat
  issue : PyStr
  confidence : PyStr
  test_id : PyStr
  cwe_link : PyStr
  more_info : PyStr
deriving DecidableEq

/-- The dict returned by `load_bandit_results`; `severity` models the Python
dict as an insertion-ordered association list; `error` is present only on the
exception branch. -/
structure BanditResult where
  status : PyStr
  issues : Nat
  severity : List (PyStr × Nat)
  findings : List BanditFinding
  error : Option PyStr := none
deriving DecidableEq

/-- `result.get("issue_severity", "LOW").upper()` for one Bandit entry. -/
def banditSeverity (e : BanditEntry) : PyStr :=
  pyUpper (e.issue_severity.getD ("LOW".data))

/-- The finding dict built for one Bandit entry (app.py lines 33-42). -/
def banditFinding (e : BanditEntry) : BanditFinding :=
  { severity := banditSeverity e
    file := e.filename.getD ("unknown".data)
    line := e.line_number.getD 0
    issue := e.issue_text.getD []
    confidence := e.issue_confidence.getD []
    test_id := e.test_id.getD []
    cwe_link := (e.issue_cwe.getD ⟨none⟩).link.getD []
    more_info := e.more_info.getD [] }

/-- `load_bandit_results` (app.py lines 16-52): reduce a Bandit SAST report to
a normalized result dict; all failure modes are captured in the result. -/
def load_bandit_results (input : FileInput BanditReport) : BanditResult :=
  match input with
  | .missing =>
      { status := ("N/A".data), issues := 0, severity := [], findings := [] }
  | .unreadable msg =>
      { status := ("ERROR".data), issues := 0, severity := [], findings := []
        error := some msg }
  | .parsed data =>
      let results := data.results
      let issues := results.length
      let severities :=
        results.foldl (fun acc r => dincr acc (banditSeverity r))
          [(("HIGH".data), 0), (("MEDIUM".data), 0), (("LOW".data), 0)]
      let findings := results.map banditFinding
      { status :=
          if issues = 0 then ("OK".data)
          else if dget severities ("HIGH".data) = 0 ∧ dget severities ("MEDIUM".data) = 0
            then ("WARN".data) else ("FAIL".data)
        issues := issues
        severity := severities
        findings := findings }

/-- Python `s[:200] + "..." if len(s) > 200 else s`. -/
def trunc200 (s : PyStr) : PyStr :=
  if s.length > 200 then s.take 200 ++ ("...".data) else s

/-- One vulnerability object of a Safety report; `none` = key absent. -/
structure SafetyVuln where
  package_name : Option PyStr := none
  analyzed_version : Option PyStr := none
  CVE : Option PyStr := none
  advisory : Option PyStr := none
  vulnerable_spec : Option PyStr := none
  more_info_url : Option PyStr := none
deriving DecidableEq

/-- A parsed Safety report: either the legacy bare array of vulnerability
objects, or the current object form whose `vulnerabilities` key may be absent
(`data.get("vulnerabilities", [])`). -/
inductive SafetyData where
  | array (items : List SafetyVuln)
  | object (vulnerabilities : Option (List SafetyVuln))
deriving DecidableEq

/-- One normalized dependency finding as built by `load_safety_results`. -/
structure SafetyFinding where
  package : PyStr
  version : PyStr
  cve : PyStr
  advisory : PyStr
  vulnerable_spec : PyStr
  more_info : PyStr
deriving DecidableEq

/-- The dict returned by `load_safety_results`. -/
structure SafetyResult where
  status : PyStr
  vulns : Nat
  vulnerabilities : List SafetyFinding
  error : Option PyStr := none
deriving DecidableEq

/-- The finding dict built for one Safety vulnerability (app.py lines 72-79). -/
def safetyFinding (v : SafetyVuln) : SafetyFinding :=
  { package := v.package_name.getD ("unknown".data)
    version := v.analyzed_version.getD []
    cve := v.CVE.getD ("N/A".data)
    advisory := trunc200 (v.advisory.getD [])
    vulnerable_spec := v.vulnerable_spec.getD []
    more_info := v.more_info_url.getD [] }

/-- The vulnerability list a parsed Safety report yields: the array itself in
the legacy format, `data.get("vulnerabilities", [])` in the current format. -/
def safetyVulnList : SafetyData → List SafetyVuln
  | .array items => items
  | .object vulnerabilities => vulnerabilities.getD []

/-- `load_safety_results` (app.py lines 55-88): reduce a Safety dependency
report (either format) to a normalized result dict. -/
def load_safety_results (input : FileInput SafetyData) : SafetyResult :=
  match input with
  | .missing =>
      { status := ("N/A".data), vulns := 0, vulnerabilities := [] }
  | .unreadable msg =>
      { status := ("ERROR".data), vulns := 0, vulnerabilities := []
        error := some msg }
  | .parsed data =>
      let vulnerabilities := safetyVulnList data
      let vulns := vulnerabilities.length
      { status := if vulns = 0 then ("OK".data) else ("FAIL".data)
        vulns := vulns
        vulnerabilities := vulnerabilities.map safetyFinding }

/-- A parsed coverage XML root: the `line-rate` attribute as a rational
(default 0 when absent; a non-numeric attribute raises inside the `try` and is
covered by `FileInput.unreadable`). -/
structure CoverageDoc where
  line_rate : Option Rat := none
deriving DecidableEq

/-- The dict returned by `load_coverage`; the float is idealised as a rational. -/
structure CoverageResult where
  status : PyStr
  coverage : Rat
  error : Option PyStr := none
deriving DecidableEq

/-- Round half to even at integer precision, as Python `round` does. -/
def roundHalfEven (q : Rat) : Int :=
  let f := q.floor
  let r := q - f
  if r < (1 : Rat) / 2 then f
  else if (1 : Rat) / 2 < r then f + 1
  else if f % 2 = 0 then f else f + 1

/-- Python `round(x, 2)` on the idealised rational value. -/
def round2 (q : Rat) : Rat := (roundHalfEven (q * 100) : Rat) / 100

/-- `load_coverage` (app.py lines 91-101): read the `line-rate` ratio,
scale to a percentage, and grade it (OK at 80 or above, else WARN). -/
def load_coverage (input : FileInput CoverageDoc) : CoverageResult :=
  match input with
  | .missing => { status := ("N/A".data), coverage := 0 }
  | .unreadable msg =>
      { status := ("ERROR".data), coverage := 0, error := some msg }
  | .parsed doc =>
      let coverage := (doc.line_rate.getD 0) * 100
      { status := if coverage ≥ 80 then ("OK".data) else ("WARN".data)
        coverage := round2 coverage }

/-- One vulnerability object of a Trivy result entry; `none` = key absent. -/
structure TrivyVuln where
  VulnerabilityID : Option PyStr := none
  PkgName : Option PyStr := none
  InstalledVersion : Option PyStr := none
  FixedVersion : Option PyStr := none
  Severity : Option PyStr := none
  Title : Option PyStr := none
  Description : Option PyStr := none
deriving DecidableEq

/-- One per-target entry of a Trivy report's `Results` list. -/
structure TrivyTarget where
  Target : Option PyStr := none
  Vulnerabilities : List TrivyVuln := []
deriving DecidableEq

/-- A parsed Trivy report: `data.get("Results", [])`. -/
structure TrivyReport where
  Results : List TrivyTarget
deriving DecidableEq

/-- One normalized container finding as built by `load_trivy_results`. -/
structure TrivyFinding where
  target : PyStr
  vuln_id : PyStr
  package : PyStr
  installed_version : PyStr
  fixed_version : PyStr
  severity : PyStr
  title : PyStr
  description : PyStr
deriving DecidableEq

/-- The dict returned by `load_trivy_results`. -/
structure TrivyResult where
  status : PyStr
  vulns : Nat
  vulnerabilities : List TrivyFinding
  error : Option PyStr := none
deriving DecidableEq

/-- The finding dict built for one Trivy vulnerability (app.py lines 119-128). -/
def trivyFinding (target : PyStr) (v : TrivyVuln) : TrivyFinding :=
  { target := target
    vuln_id := v.VulnerabilityID.getD []
    package := v.PkgName.getD []
    installed_version := v.InstalledVersion.getD []
    fixed_version := v.FixedVersion.getD ("Not available".data)
    severity := v.Severity.getD ("UNKNOWN".data)
    title := (v.Title.getD []).take 100
    description := trunc200 (v.Description.getD []) }

/-- `load_trivy_results` (app.py lines 104-136): flatten every per-target
vulnerability list of a Trivy container-scan report. -/
def load_trivy_results (input : FileInput TrivyReport) : TrivyResult :=
  match input with
  | .missing =>
      { status := ("N/A".data), vulns := 0, vulnerabilities := [] }
  | .unreadable msg =>
      { status := ("ERROR".data), vulns := 0, vulnerabilities := []
        error := some msg }
  | .parsed data =>
      let total_vulns := data.Results.foldl
        (fun acc r => acc + r.Vulnerabilities.length) 0
      let findings := data.Results.flatMap
        (fun r => r.Vulnerabilities.map (trivyFinding (r.Target.getD ("unknown".data))))
      { status := if total_vulns = 0 then ("OK".data) else ("FAIL".data)
        vulns := total_vulns
        vulnerabilities := findings }

/-- A JSON document, for the update endpoint's arbitrary posted body.
Numbers are idealised as rationals. -/
inductive Json where
  | null
  | bool (b : Bool)
  | num (q : Rat)
  | str (s : PyStr)
  | arr (items : List Json)
  | obj (fields : List (PyStr × Json))

/-- Python truthiness of a JSON value (`data or {}` in the endpoint):
`null`, `false`, `0`, the empty string, the empty array and the empty object
are falsy; everything else is truthy. -/
def Json.truthy : Json → Bool
  | .null => false
  | .bool b => b
  | .num q => if q = 0 then false else true
  | .str s => !s.isEmpty
  | .arr items => !items.isEmpty
  | .obj fields => !fields.isEmpty

/-- Outcome of one call to the update endpoint: HTTP status code, response
message, and the latest-snapshot slot on disk after the call. -/
structure UpdateOutcome where
  code : Nat
  response : PyStr
  disk : Option Json

/-- `update_results` (app.py lines 1346-1358), the `/api/update` handler.
`api_token` is `os.environ.get("API_TOKEN", "")` before the default is
applied (`none` = variable absent); `authHeader` is
`request.headers.get("Authorization")` (`none` = header absent); `body` is
the posted JSON document (`request.get_json()`, with Python `None` from a
JSON `null` body modelled as `Json.null`, which is falsy either way);
`disk` is the snapshot slot before the call. -/
def update_results (api_token : Option PyStr) (authHeader : Option PyStr)
    (body : Json) (disk : Option Json) : UpdateOutcome :=
  let AUTH_TOKEN := api_token.getD []
  if authHeader ≠ some (("Bearer ".data) ++ AUTH_TOKEN) then
    { code := 403, response := ("Unauthorized".data), disk := disk }
  else
    let data := if Json.truthy body then body else Json.obj []
    { code := 200, response := ("Results updated successfully".data)
      disk := some data }

/-- One raw job object of the CI provider's jobs payload.  `name` is accessed
by direct indexing and is always present; `status`/`conclusion` use
`job.get(..., default)`, and `conclusion` may additionally be JSON `null`
(outer `none` = key absent, inner `none` = null). -/
structure ApiJob where
  name : PyStr
  status : Option PyStr := none
  conclusion : Option (Option PyStr) := none
  started_at : Option PyStr := none
  completed_at : Option PyStr := none
  html_url : Option PyStr := none

/-- One raw workflow-run object of the CI provider's runs payload.
For `conclusion` and `status` the outer `Option` is key presence and the
inner `Option` is JSON null, since `latest_run.get(key, default)` falls back
only on an absent key, not on null. -/
structure ApiRun where
  id : Nat
  conclusion : Option (Option PyStr) := none
  status : Option (Option PyStr) := none
  html_url : Option PyStr := none
  head_branch : Option PyStr := none
  head_sha : Option PyStr := none
  created_at : Option PyStr := none
  updated_at : Option PyStr := none
  event : Option PyStr := none
  name : Option PyStr := none

/-- An HTTP response from the CI provider, already JSON-decoded. -/
structure Response (α : Type) where
  status_code : Nat
  body : α

/-- Body of the runs-list response: `data.get("workflow_runs", [])`. -/
structure RunsPayload where
  workflow_runs : List ApiRun

/-- Body of the jobs-list response: `jobs_data.get("jobs", [])`. -/
structure JobsPayload where
  jobs : List ApiJob

/-- One value of the fetcher's per-job map (app.py lines 275-281); `none` on
`conclusion` models Python `None` (a null conclusion passed through). -/
structure Job where
  status : Option PyStr := none
  conclusion : Option PyStr := none
  started_at : Option PyStr := none
  completed_at : Option PyStr := none
  html_url : Option PyStr := none
deriving DecidableEq

/-- The dict `get_github_actions_status` returns, with every key that any
branch sets; keys a branch leaves out are `none`/`[]`. -/
structure PipelineResult where
  status : PyStr
  jobs : List (PyStr × Job) := []
  run_id : Option Nat := none
  run_url : Option PyStr := none
  branch : Option PyStr := none
  commit : Option PyStr := none
  message : Option PyStr := none
  error : Option PyStr := none
  created_at : Option PyStr := none
  updated_at : Option PyStr := none
  event : Option PyStr := none
  workflow_name : Option PyStr := none

/-- The replace chain both normalizations share:
`.lower().replace(" ", "-").replace("&", "").replace("(", "").replace(")", "")`. -/
def job_name_base (name : PyStr) : PyStr :=
  pyDropChar ')' (pyDropChar '(' (pyDropChar '&'
    (pyReplaceChar ' ' '-' (pyLower name))))

/-- The fetcher's inline job-key normalization (app.py line 274):
`job["name"].lower().replace(" ", "-").replace("&", "").replace("(", "")
.replace(")", "").strip()` — note: no collapsing of consecutive hyphens. -/
def github_job_key (name : PyStr) : PyStr :=
  pyStrip (job_name_base name)

/-- The per-job dict the fetcher stores under the normalized key
(app.py lines 275-281): `job.get("status", "unknown")`,
`job.get("conclusion", "none")` (a present-but-null conclusion stays
Python `None`), and the three pass-through fields. -/
def fetchedJob (j : ApiJob) : Job :=
  { status := some (j.status.getD ("unknown".data))
    conclusion :=
      match j.conclusion with
      | none => some ("none".data)
      | some v => v
    started_at := j.started_at
    completed_at := j.completed_at
    html_url := j.html_url }

/-- `latest_run.get("conclusion", latest_run.get("status", "unknown"))`
followed by `.upper()`: `none` is the `AttributeError` raised by
`None.upper()` when the selected value is JSON null. -/
def overallStatusRaw (run : ApiRun) : Option PyStr :=
  let sel : Option PyStr :=
    match run.conclusion with
    | some v => v
    | none =>
        match run.status with
        | some v => v
        | none => some ("unknown".data)
  match sel with
  | some s => some (pyUpper s)
  | none => none

/-- `get_github_actions_status` (app.py lines 200-307) after the credential
check, modelled on the two already-received HTTP responses (the artifact
side-channel, which only mutates report files, is omitted).  An
`AttributeError` from `None.upper()` is caught by the outer
`except Exception` and becomes the ERROR dict. -/
def get_github_actions_status (github_token github_repo : PyStr)
    (runsResp : Response RunsPayload) (jobsResp : Response JobsPayload) :
    PipelineResult :=
  if github_token = [] ∨ github_repo = [] then
    { status := ("N/A".data)
      message := some ("GitHub credentials not configured".data) }
  else if runsResp.status_code ≠ 200 then
    { status := ("ERROR".data)
      error := some (("API returned ".data) ++ natStr runsResp.status_code) }
  else
    match runsResp.body.workflow_runs with
    | [] =>
        { status := ("N/A".data)
          message := some ("No workflow runs found".data) }
    | latest_run :: _ =>
        if jobsResp.status_code ≠ 200 then
          { status := ("ERROR".data)
            error := some (("Jobs API returned ".data) ++ natStr jobsResp.status_code) }
        else
          let jobs := jobsResp.body.jobs.foldl
            (fun acc j => dset acc (github_job_key j.name) (fetchedJob j)) []
          match overallStatusRaw latest_run with
          | none =>
              { status := ("ERROR".data)
                error := some (("AttributeError: NoneType has no attribute upper".data)) }
          | some overall_status =>
              { status := overall_status
                jobs := jobs
                run_id := some latest_run.id
                run_url := latest_run.html_url
                branch := latest_run.head_branch
                commit := some ((latest_run.head_sha.getD []).take 7)
                created_at := latest_run.created_at
                updated_at := latest_run.updated_at
                event := latest_run.event
                workflow_name := latest_run.name }

/-- The nested `normalize_job_name` helper of `dashboard()` (app.py lines
1274-1276): like the fetcher's key normalization but with one extra
left-to-right `.replace("--", "-")` pass before the final strip. -/
def normalize_job_name (name : PyStr) : PyStr :=
  pyStrip (replaceDashPair (job_name_base name))

/-- The containment test both matcher loops apply to one entry of the job map
(app.py lines 1285-1287 and 1307-1309): re-normalize the key, then match when
either normalized string contains the other. -/
def job_matches (normalized_search key : PyStr) : Bool :=
  pyIn normalized_search (normalize_job_name key) ||
    pyIn (normalize_job_name key) normalized_search

/-- Loop body of `get_job_status` (app.py lines 1283-1297): scan the job map
in insertion order; on a bidirectional-containment match return the mapped
conclusion, or `in-progress` for an in-flight job — otherwise keep scanning. -/
def get_job_status_go (normalized_search : PyStr) :
    List (PyStr × Job) → PyStr
  | [] => ("na".data)
  | (key, job) :: rest =>
      if job_matches normalized_search key then
        if job.conclusion = some ("success".data) then ("success".data)
        else if job.conclusion = some ("failure".data) then ("failure".data)
        else if job.conclusion = some ("skipped".data) then ("skipped".data)
        else if job.conclusion = some ("cancelled".data) then ("cancelled".data)
        else if job.status = some ("in_progress".data) then ("in-progress".data)
        else get_job_status_go normalized_search rest
      else get_job_status_go normalized_search rest

/-- The nested `get_job_status` helper of `dashboard()` (app.py lines
1278-1298). -/
def get_job_status (jobs : List (PyStr × Job)) (job_name : PyStr) : PyStr :=
  get_job_status_go (normalize_job_name job_name) jobs

/-- Loop body of `get_job_conclusion` (app.py lines 1305-1314): the first
matching job always decides — its conclusion upper-cased when truthy and not
`"none"`, else its status upper-cased; `"N/A"` when nothing matches. -/
def get_job_conclusion_go (normalized_search : PyStr) :
    List (PyStr × Job) → PyStr
  | [] => ("N/A".data)
  | (key, job) :: rest =>
      if job_matches normalized_search key then
        match job.conclusion with
        | some c =>
            if c ≠ [] ∧ c ≠ ("none".data) then pyUpper c
            else pyUpper (job.status.getD ("unknown".data))
        | none => pyUpper (job.status.getD ("unknown".data))
      else get_job_conclusion_go normalized_search rest

/-- The nested `get_job_conclusion` helper of `dashboard()` (app.py lines
1300-1314). -/
def get_job_conclusion (jobs : List (PyStr × Job)) (job_name : PyStr) : PyStr :=
  get_job_conclusion_go (normalize_job_name job_name) jobs

/-- A job the status matcher can extract a value from: one of the four mapped
conclusions, or an in-flight `in_progress` status. -/
def job_decisive (job : Job) : Bool :=
  job.conclusion == some ("success".data) ||
  job.conclusion == some ("failure".data) ||
  job.conclusion == some ("skipped".data) ||
  job.conclusion == some ("cancelled".data) ||
  job.status == some ("in_progress".data)

/-- The display status a decisive job yields. -/
def job_outcome (job : Job) : PyStr :=
  if job.conclusion = some ("success".data) then ("success".data)
  else if job.conclusion = some ("failure".data) then ("failure".data)
  else if job.conclusion = some ("skipped".data) then ("skipped".data)
  else if job.conclusion = some ("cancelled".data) then ("cancelled".data)
  else if job.status = some ("in_progress".data) then ("in-progress".data)
  else ("na".data)

/-- Modelled from the claim wording of C1: resolve the stage's display status
from the first job of the mapping whose key matches the normalized stage name
bidirectionally; that job's conclusion maps to itself when it is one of the
four terminal conclusions, else an `in_progress` status maps to
`in-progress`; `na` otherwise. -/
def get_job_status_claimed (jobs : List (PyStr × Job)) (job_name : PyStr) : PyStr :=
  let normalized_search := normalize_job_name job_name
  match jobs.find? (fun p => job_matches normalized_search p.1) with
  | some p => job_outcome p.2
  | none => ("na".data)

/-- Modelled from the claim wording of C8: the classifier decides
case-insensitively, by prefix/equality, in the stated priority order. -/
def status_class_claimed (status : PyStr) : PyStr :=
  if pyStarts (pyLower status) ("ok".data) = true ∨ pyLower status = ("success".data)
    then ("ok".data)
  else if pyStarts (pyLower status) ("warn".data) = true then ("warn".data)
  else if pyStarts (pyLower status) ("fail".data) = true ∨ pyLower status = ("failure".data)
    then ("fail".data)
  else if pyLower status = ("error".data) then ("error".data)
  else if pyIn ("progress".data) (pyLower status) = true ∨ pyLower status = ("queued".data)
    then ("in-progress".data)
  else if pyLower status = ("skipped".data) ∨ pyLower status = ("cancelled".data)
    then ("skipped".data)
  else ("na".data)

/-- Concrete inputs used by the counterexample for the job-name matcher
claim: a first matching job that the status loop cannot decide on (queued,
no conclusion yet) followed by a second matching job that concluded. -/
def jobsWithUndecidedFirst : List (PyStr × Job) :=
  [ (("build".data),
      { conclusion := some ("none".data), status := some ("queued".data) }),
    (("build-extra".data),
      { conclusion := some ("success".data), status := some ("completed".data) }) ]

/-- Concrete runs-list payload for the overall-status claim: the latest run
is still executing, so its `conclusion` is JSON null while its `status` is
`in_progress` — exactly what the CI provider reports for an in-flight run. -/
def inFlightRun : ApiRun :=
  { id := 7
    conclusion := some none
    status := some (some ("in_progress".data))
    head_sha := some ("abcdef0123456789".data) }

/-- Like `inFlightRun` but with the `conclusion` key absent altogether, the
only shape on which the nested `dict.get` fallback actually fires. -/
def inFlightRunNoKey : ApiRun :=
  { id := 7
    conclusion := none
    status := some (some ("in_progress".data))
    head_sha := some ("abcdef0123456789".data) }

/- ------------------------------------------------------------------ -/
/- Helper lemmas                                                       -/
/- ------------------------------------------------------------------ -/

theorem replaceDashPair_eq_self (l : PyStr) (h : hasDoubleDash l = false) :
    replaceDashPair l = l := by
  induction l with
  | nil => rfl
  | cons c rest ih =>
    cases rest with
    | nil => rfl
    | cons c2 rest2 =>
      simp only [hasDoubleDash, Bool.or_eq_false_iff, Bool.and_eq_false_iff] at h
      obtain ⟨h1, h2⟩ := h
      have hne : ¬(c = '-' ∧ c2 = '-') := by
        intro hc
        rcases h1 with h1 | h1 <;> simp [hc.1, hc.2] at h1
      simp only [replaceDashPair, if_neg hne]
      rw [ih h2]

theorem dget_dincr (d : List (PyStr × Nat)) (s k : PyStr) :
    dget (dincr d s) k = dget d k + (if s = k then 1 else 0) := by
  induction d with
  | nil =>
    simp only [dincr, dget]
    split_ifs <;> simp_all
  | cons p rest ih =>
    obtain ⟨k0, v⟩ := p
    by_cases h0 : k0 = s
    · subst h0
      by_cases hk : k0 = k <;> simp [dincr, dget, hk]
    · have hstep : dincr ((k0, v) :: rest) s = (k0, v) :: dincr rest s := by
        simp [dincr, h0]
      rw [hstep]
      by_cases hk : k0 = k
      · have hs : ¬(s = k) := fun hs => h0 (hk.trans hs.symm)
        simp [dget, hk, hs]
      · simp only [dget, if_neg hk]
        exact ih

theorem dget_foldl_dincr (l : List BanditEntry) (acc : List (PyStr × Nat))
    (k : PyStr) :
    dget (l.foldl (fun a r => dincr a (banditSeverity r)) acc) k
      = dget acc k + l.countP (fun e => banditSeverity e == k) := by
  induction l generalizing acc with
  | nil => simp
  | cons e rest ih =>
    simp only [List.foldl_cons, List.countP_cons]
    rw [ih]
    rw [dget_dincr]
    by_cases h : banditSeverity e = k
    · simp [h]
      omega
    · simp [h]

theorem status_class_mem (s : PyStr) :
    status_class s = ("ok".data) ∨ status_class s = ("warn".data) ∨
    status_class s = ("fail".data) ∨ status_class s = ("error".data) ∨
    status_class s = ("in-progress".data) ∨ status_class s = ("skipped".data) ∨
    status_class s = ("na".data) := by
  unfold status_class
  split_ifs <;> simp

theorem get_job_status_go_eq_find (search : PyStr) (jobs : List (PyStr × Job)) :
    get_job_status_go search jobs =
      (match jobs.find? (fun p => job_matches search p.1 && job_decisive p.2) with
       | some p => job_outcome p.2
       | none => ("na".data)) := by
  induction jobs with
  | nil => rfl
  | cons p rest ih =>
    obtain ⟨key, job⟩ := p
    simp only [get_job_status_go, List.find?]
    by_cases hm : job_matches search key = true
    · by_cases hd : job_decisive job = true
      · simp only [hm, hd, Bool.and_self, if_pos]
        simp only [job_decisive, Bool.or_eq_true, beq_iff_eq] at hd
        simp only [job_outcome]
        rcases Decidable.em (job.conclusion = some (("success").data)) with h1 | h1
        · simp [h1]
        · rcases Decidable.em (job.conclusion = some (("failure").data)) with h2 | h2
          · simp [h1, h2]
          · rcases Decidable.em (job.conclusion = some (("skipped").data)) with h3 | h3
            · simp [h1, h2, h3]
            · rcases Decidable.em (job.conclusion = some (("cancelled").data)) with h4 | h4
              · simp [h1, h2, h3, h4]
              · have h5 : job.status = some (("in_progress").data) := by
                  tauto
                simp [h1, h2, h3, h4, h5]
      · have hnd := hd
        simp only [job_decisive, Bool.or_eq_true, beq_iff_eq] at hnd
        push_neg at hnd
        obtain ⟨⟨⟨⟨h1, h2⟩, h3⟩, h4⟩, h5⟩ := hnd
        simp only [hm, hd, Bool.and_false, Bool.true_and, if_pos, if_neg,
          Bool.false_eq_true]
        simp only [if_neg h1, if_neg h2, if_neg h3, if_neg h4, if_neg h5]
        simpa using ih
    · simp only [hm, Bool.false_and, if_neg]
      simp only [Bool.false_eq_true, if_neg, ite_false]
      simpa using ih

theorem get_job_status_go_no_match (search : PyStr) (jobs : List (PyStr × Job))
    (h : jobs.find? (fun p => job_matches search p.1) = none) :
    get_job_status_go search jobs = ("na".data) := by
  rw [List.find?_eq_none] at h
  induction jobs with
  | nil => rfl
  | cons p rest ih =>
    obtain ⟨key, job⟩ := p
    have hm : ¬(job_matches search key = true) := h (key, job) (List.mem_cons_self _ _)
    simp only [get_job_status_go, hm, Bool.false_eq_true, if_neg, ite_false]
    exact ih (fun x hx => h x (List.mem_cons_of_mem _ hx))

theorem get_job_conclusion_go_no_match (search : PyStr)
    (jobs : List (PyStr × Job))
    (h : jobs.find? (fun p => job_matches search p.1) = none) :
    get_job_conclusion_go search jobs = ("N/A".data) := by
  rw [List.find?_eq_none] at h
  induction jobs with
  | nil => rfl
  | cons p rest ih =>
    obtain ⟨key, job⟩ := p
    have hm : ¬(job_matches search key = true) := h (key, job) (List.mem_cons_self _ _)
    simp only [get_job_conclusion_go, hm, Bool.false_eq_true, if_neg, ite_false]
    exact ih (fun x hx => h x (List.mem_cons_of_mem _ hx))

/- ------------------------------------------------------------------ -/
/- Claim theorems                                                      -/
/- ------------------------------------------------------------------ -/

/-- C1 counterexample: the status matcher does not resolve from the first
matching job.  With a first matching job that is queued (conclusion `"none"`,
status `"queued"`) followed by a second matching job that succeeded, the code
returns `success` from the second job, while resolving from the first
matching job (as the claim states) yields `na`. -/
theorem jobMatcher_first_match_counterexample :
    get_job_status jobsWithUndecidedFirst ("build".data) = ("success".data)
    ∧ get_job_status_claimed jobsWithUndecidedFirst ("build".data) = ("na".data)
    ∧ get_job_status jobsWithUndecidedFirst ("build".data)
        ≠ get_job_status_claimed jobsWithUndecidedFirst ("build".data) := by
  decide

/-- C1 (amended): the Job-Name Matcher resolves the stage's display status
from the first job (in insertion order) whose key matches bidirectionally AND
which is decisive — conclusion in `{success, failure, skipped, cancelled}`
(mapped to itself) or in-flight status `in_progress` (mapped to
`in-progress`); matching jobs that are not decisive are skipped.  If no job
key matches at all, the resolved status is `na` and the resolved conclusion
text is the literal `"N/A"`. -/
theorem jobMatcher_resolves_first_decisive_match :
    (∀ (jobs : List (PyStr × Job)) (job_name : PyStr),
      get_job_status jobs job_name =
        (match jobs.find? (fun p =>
            job_matches (normalize_job_name job_name) p.1 && job_decisive p.2) with
         | some p => job_outcome p.2
         | none => ("na".data)))
    ∧ (∀ (jobs : List (PyStr × Job)) (job_name : PyStr),
        jobs.find? (fun p => job_matches (normalize_job_name job_name) p.1) = none →
          get_job_conclusion jobs job_name = ("N/A".data)
          ∧ get_job_status jobs job_name = ("na".data)) := by
  constructor
  · intro jobs job_name
    exact get_job_status_go_eq_find _ jobs
  · intro jobs job_name h
    exact ⟨get_job_conclusion_go_no_match _ _ h, get_job_status_go_no_match _ _ h⟩

/-- C1 witness: on an empty job map, no key matches `deploy-simulation`, and
the resolved conclusion text is the literal `"N/A"`. -/
theorem jobMatcher_no_match_witness :
    (([] : List (PyStr × Job)).find?
        (fun p => job_matches (normalize_job_name ("deploy-simulation".data)) p.1) = none)
    ∧ get_job_conclusion [] ("deploy-simulation".data) = ("N/A".data) :=
  ⟨rfl, (jobMatcher_resolves_first_decisive_match.2 [] ("deploy-simulation".data) rfl).1⟩

/-- C2: the SAST parser returns `OK` on an empty results list, `FAIL` exactly
when some entry's severity (upper-cased, default LOW) is HIGH or MEDIUM, and
`WARN` otherwise; the severity counter counts each of the three initialized
buckets exactly; and one HIGH finding yields `FAIL` with breakdown
`{HIGH: 1, MEDIUM: 0, LOW: 0}`. -/
theorem bandit_status_policy :
    (∀ results : List BanditEntry,
      ((load_bandit_results (.parsed ⟨results⟩)).status = ("OK".data) ↔ results = [])
      ∧ ((load_bandit_results (.parsed ⟨results⟩)).status = ("FAIL".data) ↔
          ∃ e ∈ results,
            banditSeverity e = ("HIGH".data) ∨ banditSeverity e = ("MEDIUM".data))
      ∧ ((load_bandit_results (.parsed ⟨results⟩)).status = ("WARN".data) ↔
          results ≠ [] ∧ ∀ e ∈ results,
            ¬(banditSeverity e = ("HIGH".data) ∨ banditSeverity e = ("MEDIUM".data)))
      ∧ dget (load_bandit_results (.parsed ⟨results⟩)).severity ("HIGH".data)
          = results.countP (fun e => banditSeverity e == ("HIGH".data))
      ∧ dget (load_bandit_results (.parsed ⟨results⟩)).severity ("MEDIUM".data)
          = results.countP (fun e => banditSeverity e == ("MEDIUM".data))
      ∧ dget (load_bandit_results (.parsed ⟨results⟩)).severity ("LOW".data)
          = results.countP (fun e => banditSeverity e == ("LOW".data)))
    ∧ load_bandit_results (.parsed ⟨[{ issue_severity := some ("HIGH".data) }]⟩)
        = { status := ("FAIL".data), issues := 1
            severity := [(("HIGH".data), 1), (("MEDIUM".data), 0), (("LOW".data), 0)]
            findings := [ { severity := ("HIGH".data), file := ("unknown".data)
                            line := 0, issue := [], confidence := [], test_id := []
                            cwe_link := [], more_info := [] } ] } := by
  constructor
  · intro results
    have hH : dget (load_bandit_results (.parsed ⟨results⟩)).severity ("HIGH".data)
        = results.countP (fun e => banditSeverity e == ("HIGH".data)) := by
      show dget (results.foldl (fun acc r => dincr acc (banditSeverity r))
          [(("HIGH".data), 0), (("MEDIUM".data), 0), (("LOW".data), 0)]) ("HIGH".data) = _
      rw [dget_foldl_dincr,
        show dget [(("HIGH".data), 0), (("MEDIUM".data), 0), (("LOW".data), 0)]
          ("HIGH".data) = 0 from by decide, Nat.zero_add]
    have hM : dget (load_bandit_results (.parsed ⟨results⟩)).severity ("MEDIUM".data)
        = results.countP (fun e => banditSeverity e == ("MEDIUM".data)) := by
      show dget (results.foldl (fun acc r => dincr acc (banditSeverity r))
          [(("HIGH".data), 0), (("MEDIUM".data), 0), (("LOW".data), 0)]) ("MEDIUM".data) = _
      rw [dget_foldl_dincr,
        show dget [(("HIGH".data), 0), (("MEDIUM".data), 0), (("LOW".data), 0)]
          ("MEDIUM".data) = 0 from by decide, Nat.zero_add]
    have hL : dget (load_bandit_results (.parsed ⟨results⟩)).severity ("LOW".data)
        = results.countP (fun e => banditSeverity e == ("LOW".data)) := by
      show dget (results.foldl (fun acc r => dincr acc (banditSeverity r))
          [(("HIGH".data), 0), (("MEDIUM".data), 0), (("LOW".data), 0)]) ("LOW".data) = _
      rw [dget_foldl_dincr,
        show dget [(("HIGH".data), 0), (("MEDIUM".data), 0), (("LOW".data), 0)]
          ("LOW".data) = 0 from by decide, Nat.zero_add]
    have hst : (load_bandit_results (.parsed ⟨results⟩)).status
        = if results.length = 0 then ("OK".data)
          else if dget (load_bandit_results (.parsed ⟨results⟩)).severity ("HIGH".data) = 0
              ∧ dget (load_bandit_results (.parsed ⟨results⟩)).severity ("MEDIUM".data) = 0
            then ("WARN".data) else ("FAIL".data) := rfl
    refine ⟨?_, ?_, ?_, hH, hM, hL⟩ <;> rw [hst, hH, hM]
    · by_cases hnil : results = []
      · subst hnil; decide
      · have hlen : ¬(results.length = 0) := by
          simpa [List.length_eq_zero] using hnil
        rw [if_neg hlen]
        split_ifs with hz
        · exact ⟨fun hc => absurd hc (by decide), fun hc => absurd hc hnil⟩
        · exact ⟨fun hc => absurd hc (by decide), fun hc => absurd hc hnil⟩
    · by_cases hnil : results = []
      · subst hnil; decide
      · have hlen : ¬(results.length = 0) := by
          simpa [List.length_eq_zero] using hnil
        rw [if_neg hlen]
        split_ifs with hz
        · constructor
          · intro hc; exact absurd hc (by decide)
          · rintro ⟨e, he, hs | hs⟩
            · have h0 := List.countP_eq_zero.mp hz.1 e he
              simp [hs] at h0
            · have h0 := List.countP_eq_zero.mp hz.2 e he
              simp [hs] at h0
        · constructor
          · intro _
            rcases not_and_or.mp hz with hc | hc
            · obtain ⟨e, he, hp⟩ := List.countP_pos_iff.mp (Nat.pos_of_ne_zero hc)
              exact ⟨e, he, Or.inl (by simpa using hp)⟩
            · obtain ⟨e, he, hp⟩ := List.countP_pos_iff.mp (Nat.pos_of_ne_zero hc)
              exact ⟨e, he, Or.inr (by simpa using hp)⟩
          · intro _; rfl
    · by_cases hnil : results = []
      · subst hnil; decide
      · have hlen : ¬(results.length = 0) := by
          simpa [List.length_eq_zero] using hnil
        rw [if_neg hlen]
        split_ifs with hz
        · constructor
          · intro _
            refine ⟨hnil, fun e he => ?_⟩
            rintro (hs | hs)
            · have h0 := List.countP_eq_zero.mp hz.1 e he
              simp [hs] at h0
            · have h0 := List.countP_eq_zero.mp hz.2 e he
              simp [hs] at h0
          · intro _; rfl
        · constructor
          · intro hc; exact absurd hc (by decide)
          · rintro ⟨_, hall⟩
            exfalso
            apply hz
            constructor
            · refine List.countP_eq_zero.mpr (fun e he => ?_)
              intro hp
              exact hall e he (Or.inl (by simpa using hp))
            · refine List.countP_eq_zero.mpr (fun e he => ?_)
              intro hp
              exact hall e he (Or.inr (by simpa using hp))
  · decide

/-- C2 witness: an empty results list is graded `OK`, through the general
status policy. -/
theorem bandit_status_policy_witness :
    (load_bandit_results (.parsed ⟨[]⟩)).status = ("OK".data) :=
  ((bandit_status_policy.1 []).1).mpr rfl

/-- C3: each of the four report parsers maps a missing source file to status
`N/A` with zero count and empty findings, and an unreadable/unparsable source
to status `ERROR` with zero count, empty findings, and the exception text
captured as the `error` string.  The embedded parsers are total functions, so
neither case can raise to the caller. -/
theorem parser_failure_containment :
    (load_bandit_results .missing
        = { status := ("N/A".data), issues := 0, severity := [], findings := [] })
    ∧ (∀ msg : PyStr, load_bandit_results (.unreadable msg)
        = { status := ("ERROR".data), issues := 0, severity := [], findings := []
            error := some msg })
    ∧ (load_safety_results .missing
        = { status := ("N/A".data), vulns := 0, vulnerabilities := [] })
    ∧ (∀ msg : PyStr, load_safety_results (.unreadable msg)
        = { status := ("ERROR".data), vulns := 0, vulnerabilities := []
            error := some msg })
    ∧ (load_coverage .missing = { status := ("N/A".data), coverage := 0 })
    ∧ (∀ msg : PyStr, load_coverage (.unreadable msg)
        = { status := ("ERROR".data), coverage := 0, error := some msg })
    ∧ (load_trivy_results .missing
        = { status := ("N/A".data), vulns := 0, vulnerabilities := [] })
    ∧ (∀ msg : PyStr, load_trivy_results (.unreadable msg)
        = { status := ("ERROR".data), vulns := 0, vulnerabilities := []
            error := some msg }) :=
  ⟨rfl, fun _ => rfl, rfl, fun _ => rfl, rfl, fun _ => rfl, rfl, fun _ => rfl⟩

/-- C4 counterexample: the fetcher's job-key normalization does not collapse
consecutive hyphens and therefore differs from the matcher's
`normalize_job_name` — two consecutive spaces become `--` in the fetcher's
key but `-` in the matcher's. -/
theorem normalization_mismatch_counterexample :
    github_job_key ("a  b".data) = ("a--b".data)
    ∧ normalize_job_name ("a  b".data) = ("a-b".data)
    ∧ github_job_key ("a  b".data) ≠ normalize_job_name ("a  b".data) := by
  decide

/-- C4 (amended): the fetcher builds its lookup key by lower-casing,
replacing spaces with hyphens, stripping ampersands and parentheses, and
trimming — with no hyphen collapsing; the matcher's normalization
additionally applies one left-to-right `--`→`-` replacement pass (which
turns three spaces into `--`, not `-`).  The two normalizations agree
exactly on names whose shared replace chain produces no two consecutive
hyphens. -/
theorem fetcher_matcher_normalization_agreement :
    (∀ name : PyStr, hasDoubleDash (job_name_base name) = false →
        github_job_key name = normalize_job_name name)
    ∧ normalize_job_name ("a   b".data) = ("a--b".data) := by
  constructor
  · intro name h
    unfold github_job_key normalize_job_name
    rw [replaceDashPair_eq_self _ h]
  · decide

/-- C4 witness: on `"Unit Tests (x)"` the shared chain yields no consecutive
hyphens and the two normalizations agree. -/
theorem fetcher_matcher_normalization_witness :
    hasDoubleDash (job_name_base ("Unit Tests (x)".data)) = false
    ∧ github_job_key ("Unit Tests (x)".data)
        = normalize_job_name ("Unit Tests (x)".data) :=
  ⟨by decide, fetcher_matcher_normalization_agreement.1 _ (by decide)⟩

/-- C5: evaluation at the failing input.  For an in-flight latest run
(`conclusion` present but JSON null, `status = "in_progress"`) with both API
calls succeeding, the fetcher does not fall back to the in-flight status:
`None.upper()` raises, the exception is swallowed, and the overall status
becomes `ERROR` instead of the claimed `IN_PROGRESS`.  Only when the
`conclusion` key is absent altogether does the claimed fallback fire. -/
theorem overall_status_null_conclusion_bug :
    (get_github_actions_status ("token".data) ("owner/repo".data)
        ⟨200, ⟨[inFlightRun]⟩⟩ ⟨200, ⟨[]⟩⟩).status = ("ERROR".data)
    ∧ (get_github_actions_status ("token".data) ("owner/repo".data)
        ⟨200, ⟨[inFlightRun]⟩⟩ ⟨200, ⟨[]⟩⟩).error
        = some (("AttributeError: NoneType has no attribute upper".data))
    ∧ pyUpper ("in_progress".data) = ("IN_PROGRESS".data)
    ∧ (get_github_actions_status ("token".data) ("owner/repo".data)
        ⟨200, ⟨[inFlightRun]⟩⟩ ⟨200, ⟨[]⟩⟩).status ≠ ("IN_PROGRESS".data)
    ∧ (get_github_actions_status ("token".data) ("owner/repo".data)
        ⟨200, ⟨[inFlightRunNoKey]⟩⟩ ⟨200, ⟨[]⟩⟩).status = ("IN_PROGRESS".data) := by
  decide

/-- C6 counterexample: with the correct bearer header, a posted JSON document
that is falsy — here the empty array — is not persisted verbatim: the
endpoint's `request.get_json() or {}` replaces it with the empty object. -/
theorem update_endpoint_verbatim_counterexample :
    (update_results (some ("s".data)) (some ("Bearer s".data))
        (Json.arr []) (some (Json.num 1))).code = 200
    ∧ (update_results (some ("s".data)) (some ("Bearer s".data))
        (Json.arr []) (some (Json.num 1))).disk = some (Json.obj [])
    ∧ some (Json.obj []) ≠ some (Json.arr ([] : List Json)) := by
  refine ⟨rfl, rfl, ?_⟩
  intro h
  exact Json.noConfusion (Option.some.inj h)

/-- C6 (amended): a request whose Authorization header equals
`"Bearer " ++ secret` is accepted (HTTP 200) and persists the posted JSON
document verbatim when the document is truthy; a falsy document (null,
false, 0, empty string/array/object) is replaced by the empty object.  An
incorrect or missing header is rejected with 403 and the snapshot on disk is
unchanged. -/
theorem update_endpoint_auth_and_persist :
    ∀ (secret : PyStr) (hdr : Option PyStr) (body : Json) (disk : Option Json),
      (hdr = some (("Bearer ".data) ++ secret) →
        (update_results (some secret) hdr body disk).code = 200
        ∧ (update_results (some secret) hdr body disk).disk
            = some (if Json.truthy body then body else Json.obj [])
        ∧ (Json.truthy body = true →
            (update_results (some secret) hdr body disk).disk = some body))
      ∧ (hdr ≠ some (("Bearer ".data) ++ secret) →
        (update_results (some secret) hdr body disk).code = 403
        ∧ (update_results (some secret) hdr body disk).disk = disk) := by
  intro secret hdr body disk
  constructor
  · intro h
    simp only [update_results]
    split_ifs with hc hbt hbt2 <;>
      first
        | exact absurd h hc
        | exact ⟨rfl, rfl, fun _ => rfl⟩
        | exact ⟨rfl, rfl, fun ht => absurd ht hbt2⟩
  · intro h
    simp only [update_results]
    split_ifs with hc hbt <;>
      first
        | exact ⟨rfl, rfl⟩
        | exact absurd (not_not.mp hc) h

/-- C6 witness: a truthy document with the correct header is persisted
verbatim with a 200; a missing header is rejected with 403. -/
theorem update_endpoint_auth_witness :
    (update_results (some ("s".data)) (some ("Bearer s".data))
        (Json.obj [(("a".data), Json.null)]) none).code = 200
    ∧ (update_results (some ("s".data)) (some ("Bearer s".data))
        (Json.obj [(("a".data), Json.null)]) none).disk
        = some (Json.obj [(("a".data), Json.null)])
    ∧ (update_results (some ("s".data)) none Json.null (some (Json.num 3))).code = 403 :=
  ⟨((update_endpoint_auth_and_persist ("s".data) (some ("Bearer s".data))
      (Json.obj [(("a".data), Json.null)]) none).1 (by decide)).1,
   ((update_endpoint_auth_and_persist ("s".data) (some ("Bearer s".data))
      (Json.obj [(("a".data), Json.null)]) none).1 (by decide)).2.2 rfl,
   ((update_endpoint_auth_and_persist ("s".data) none Json.null
      (some (Json.num 3))).2 (by decide)).1⟩

/-- C7: the dependency parser treats the legacy bare array and the current
object-with-`vulnerabilities`-list formats identically: the full results are
equal, the count is the number of vulnerability objects, the status is `OK`
exactly on zero vulnerabilities and `FAIL` otherwise, and two vulnerabilities
in either format yield `vulns = 2` and status `FAIL`. -/
theorem safety_parser_format_equivalence :
    (∀ vs : List SafetyVuln,
      load_safety_results (.parsed (.array vs))
          = load_safety_results (.parsed (.object (some vs)))
      ∧ (load_safety_results (.parsed (.array vs))).vulns = vs.length
      ∧ (load_safety_results (.parsed (.array vs))).status
          = (if vs = [] then ("OK".data) else ("FAIL".data)))
    ∧ (load_safety_results (.parsed (.array [{}, {}]))).vulns = 2
    ∧ (load_safety_results (.parsed (.array [{}, {}]))).status = ("FAIL".data)
    ∧ (load_safety_results (.parsed (.object (some [{}, {}])))).vulns = 2
    ∧ (load_safety_results (.parsed (.object (some [{}, {}])))).status
        = ("FAIL".data) := by
  refine ⟨fun vs => ⟨rfl, rfl, ?_⟩, by decide, by decide, by decide, by decide⟩
  show (if vs.length = 0 then ("OK".data) else ("FAIL".data)) = _
  by_cases h : vs = []
  · simp [h]
  · have hlen : ¬(vs.length = 0) := by simpa [List.length_eq_zero] using h
    simp [h, hlen]

/-- C8: the classifier implements exactly the claimed case-insensitive
priority decision list (compared against `status_class_claimed`, transcribed
from the claim), and is total: every input maps to one of the seven display
classes. -/
theorem status_classifier_decision_order :
    (∀ s : PyStr, status_class s = status_class_claimed s)
    ∧ (∀ s : PyStr,
        status_class s = ("ok".data) ∨ status_class s = ("warn".data) ∨
        status_class s = ("fail".data) ∨ status_class s = ("error".data) ∨
        status_class s = ("in-progress".data) ∨ status_class s = ("skipped".data) ∨
        status_class s = ("na".data)) := by
  constructor
  · intro s
    unfold status_class status_class_claimed
    split_ifs <;> simp_all
  · exact status_class_mem

/-- C9: the classifier is idempotent — classifying its own output is the
identity — and maps `"SUCCESS"`, `"failure"`, `"queued"`, `"banana"` to
`ok`, `fail`, `in-progress`, `na` respectively. -/
theorem status_classifier_idempotent :
    (∀ s : PyStr, status_class (status_class s) = status_class s)
    ∧ status_class ("SUCCESS".data) = ("ok".data)
    ∧ status_class ("failure".data) = ("fail".data)
    ∧ status_class ("queued".data) = ("in-progress".data)
    ∧ status_class ("banana".data) = ("na".data) := by
  refine ⟨?_, by decide, by decide, by decide, by decide⟩
  intro s
  rcases status_class_mem s with h | h | h | h | h | h | h <;> rw [h] <;> decide

/-- C10: when the configured shared secret is absent (`none`) or empty, a
request whose Authorization header is exactly `"Bearer "` passes the check
and is persisted — there is no special rejection for the unconfigured-secret
state, and the absent and empty configurations behave identically. -/
theorem update_endpoint_empty_token_accepts :
    ∀ (body : Json) (disk : Option Json),
      (update_results none (some ("Bearer ".data)) body disk).code = 200
      ∧ (update_results none (some ("Bearer ".data)) body disk).disk
          = some (if Json.truthy body then body else Json.obj [])
      ∧ update_results (some []) (some ("Bearer ".data)) body disk
          = update_results none (some ("Bearer ".data)) body disk := by
  intro body disk
  have happ : (("Bearer ".data) : PyStr) ++ ([] : PyStr) = ("Bearer ".data) :=
    List.append_nil _
  refine ⟨?_, ?_, rfl⟩
  · simp [update_results, happ]
  · simp [update_results, happ]
